import Mathlib

/-!
Verification development for the internal interface module of a disassembler
scripting toolkit (`src/base/_interface.py`).

The Python source is shallowly embedded: each namespace/class of the module
becomes a Lean namespace, pure methods become Lean functions, and fallible
code returns `Except PyErr`.  Host-disassembler (idaapi) constants and the
narrow sibling-module capabilities (structure lookup by identifier, array
reads from the database) are not part of this repository; they are modelled
explicitly below, with their values taken from the host API the source is
written against (version >= 7.0 branches of the source are followed).
-/

set_option autoImplicit false

/-- Python exception classes that the embedded code can raise. -/
inductive PyErr
  | keyError
  | valueError
  | typeError
  | nameError
  | attributeError
  | lookupError
  | indexError
  | stopIteration
  deriving DecidableEq, Repr

namespace idaapi

/-! Host API constants (idaapi, version >= 7.0).  These are values of the
external disassembler API, reproduced here because the embedded source
manipulates them bitwise.  The `*flag` functions of the host return the
data-type nibble combined with `FF_DATA = 0x400`. -/

def FF_DATA : Nat := 0x00000400
def FF_SIGN : Nat := 0x00020000
def FF_STRU : Nat := 0x60000000
def FF_0OFF : Nat := 0x00500000

def byteflag : Nat := 0x00000000 ||| FF_DATA
def wordflag : Nat := 0x10000000 ||| FF_DATA
def dwrdflag : Nat := 0x20000000 ||| FF_DATA
def qwrdflag : Nat := 0x30000000 ||| FF_DATA
def tbytflag : Nat := 0x40000000 ||| FF_DATA
def asciflag : Nat := 0x50000000 ||| FF_DATA
def struflag : Nat := FF_STRU ||| FF_DATA
def owrdflag : Nat := 0x70000000 ||| FF_DATA
def floatflag : Nat := 0x80000000 ||| FF_DATA
def doubleflag : Nat := 0x90000000 ||| FF_DATA
def packrealflag : Nat := 0xA0000000 ||| FF_DATA
def alignflag : Nat := 0xB0000000 ||| FF_DATA
def offflag : Nat := FF_0OFF

def ASCSTR_TERMCHR : Nat := 0
def ASCSTR_UNICODE : Nat := 3

def BADADDR : Nat := 0xffffffffffffffff

/-- Modelled from the spec: the host's "reported per-element size" used by
`get_data_elsize(BADADDR, dt, opinfo_t())`.  Only the string (`FF_ASCI`)
case is reached by the properties verified here; string data is byte-sized.
For the other data-type nibbles the host reports the native scalar size. -/
def get_data_elsize (flag : Nat) : Nat :=
  let dt := flag &&& 0xf0000000
  if dt = 0x00000000 then 1
  else if dt = 0x10000000 then 2
  else if dt = 0x20000000 then 4
  else if dt = 0x30000000 then 8
  else if dt = 0x40000000 then 10
  else if dt = 0x50000000 then 1
  else if dt = 0x70000000 then 16
  else if dt = 0x80000000 then 4
  else if dt = 0x90000000 then 8
  else if dt = 0xA0000000 then 10
  else 1

end idaapi

/-- The Python "type" tokens the typemap grammar is written with:
`int`, `long`, `float`, `str`, `unicode`, `chr`, `type` (pointer) and
`None` (alignment). -/
inductive pykind
  | int
  | long
  | float
  | str
  | unicode
  | chr
  | type
  | none
  deriving DecidableEq, Repr

/-- Python values exchanged with `typemap.resolve`/`typemap.dissolve`:
a `(type, size)` tuple, a bare type token, a `[element, count]` list, or a
`structure_t` object (identified by its id). -/
inductive pyval
  | scalar (t : pykind) (sz : Int)
  | bare (t : pykind)
  | array (el : pyval) (count : Nat)
  | struc (id : Nat)
  deriving DecidableEq, Repr

deriving instance DecidableEq for Except

namespace typemap

open idaapi

def FF_MASKSIZE : Nat := 0xf0000000
def FF_MASK : Nat := 0xfff00000

/-- `typemap.integermap` (version >= 7.0, so no 3-byte entry; the optional
`ywrdflag` entry is absent from the modelled host).  Keys are byte sizes,
values `(flag, typeid)`. -/
def integermap : List (Nat × Nat × Int) :=
  [(1, byteflag, -1), (2, wordflag, -1),
   (4, dwrdflag, -1), (8, qwrdflag, -1), (10, tbytflag, -1),
   (16, owrdflag, -1)]

/-- `typemap.decimalmap`. -/
def decimalmap : List (Nat × Nat × Int) :=
  [(4, floatflag, -1), (8, doubleflag, -1),
   (10, packrealflag, -1), (12, packrealflag, -1)]

/-- `typemap.stringmap`, keyed by the python type tokens `chr`, `str`,
`unicode`. -/
def stringmap : List (pykind × Nat × Int) :=
  [(.chr, asciflag, (ASCSTR_TERMCHR : Int)),
   (.str, asciflag, (ASCSTR_TERMCHR : Int)),
   (.unicode, asciflag, (ASCSTR_UNICODE : Int))]

/-- `typemap.ptrmap`: the integer table with the offset bits or'd in. -/
def ptrmap : List (Nat × Nat × Int) :=
  integermap.map (fun p => (p.1, offflag ||| p.2.1, p.2.2))

/-- `typemap.nonemap = { None : (alignflag(), -1) }`; its single entry. -/
def nonemapEntry : Nat × Int := (alignflag, -1)

/-- The value stored in the inverted table: either a fixed scalar size, or
a dynamically sized entry (the string rows store a python type object as
the "size", which the source detects with an `isinstance` integer check). -/
inductive invsz
  | fixed (n : Int)
  | dyn
  deriving DecidableEq, Repr

/-- Python dict assignment on an association list: replace an existing
binding in place, else append. -/
def dictSet (m : List (Nat × pykind × invsz)) (k : Nat) (v : pykind × invsz) :
    List (Nat × pykind × invsz) :=
  if (m.lookup k).isSome then m.map (fun p => if p.1 = k then (k, v) else p)
  else m ++ [(k, v)]

/-- The order in which CPython 2 iterates the `decimalmap` dict: small-int
hashes place key 4 in slot 4, key 8 in slot 0 and key 10 in slot 2 of the
8-slot table, and key 12 collides with 4 at slot 4 and is probed to slot 1
(`j = (5*4 + 1 + 12) % 8 = 1`), so iteration in slot order yields
8, 12, 10, 4.  The size-10 row is therefore the *last* writer of the
shared `packrealflag` key of the inverted table below. -/
def decimalmapIter : List (Nat × Nat × Int) :=
  [(8, doubleflag, -1), (12, packrealflag, -1),
   (10, packrealflag, -1), (4, floatflag, -1)]

/-- The iteration order holds exactly the rows of `decimalmap`. -/
theorem decimalmapIter_perm : decimalmapIter.Perm decimalmap := by decide

/-- `typemap.inverted`, built exactly as in the source: the integer rows
keyed by `flag & FF_MASKSIZE`, then the decimal rows, then the string rows
(all three share `asciflag`, so one entry results, with a non-integer size),
then the pointer rows keyed by `flag & FF_MASK`, and finally the `FF_STRU`
hack entry.  Dict iteration order only matters where rows share a key: the
decimal rows are folded in CPython 2's iteration order (`decimalmapIter`),
under which size 10 overwrites size 12 in the `packrealflag` entry; the
integer and pointer rows have pairwise distinct keys, and the string rows
all produce the same dynamically-sized entry, so their order is
irrelevant and the source's literal order is used. -/
def inverted : List (Nat × pykind × invsz) :=
  let m := integermap.foldl
    (fun m p => dictSet m (p.2.1 &&& FF_MASKSIZE) (.int, .fixed (p.1 : Int))) []
  let m := decimalmapIter.foldl
    (fun m p => dictSet m (p.2.1 &&& FF_MASKSIZE) (.float, .fixed (p.1 : Int))) m
  let m := stringmap.foldl
    (fun m p => dictSet m (p.2.1 &&& FF_MASKSIZE) (.str, .dyn)) m
  let m := ptrmap.foldl
    (fun m p => dictSet m (p.2.1 &&& FF_MASK) (.type, .fixed (p.1 : Int))) m
  dictSet m FF_STRU (.int, .fixed 1)

/-- The table lookup done by `resolve` for a `(t, sz)` tuple:
`table = cls.typemap[t]; table[abs(sz) if t in {int, long, float, type} else t]`. -/
def scalarLookup (t : pykind) (sz : Int) : Option (Nat × Int) :=
  match t with
  | .int => (integermap.lookup sz.natAbs).map id
  | .long => (integermap.lookup sz.natAbs).map id
  | .float => (decimalmap.lookup sz.natAbs).map id
  | .type => (ptrmap.lookup sz.natAbs).map id
  | .str => (stringmap.lookup .str).map id
  | .unicode => (stringmap.lookup .unicode).map id
  | .chr => (stringmap.lookup .chr).map id
  | .none => some nonemapEntry

/-- The `table[None]` lookup done by `resolve` for a bare type token.
`typemap.__newprc__` installs the default rows keyed by `None`; the model
fixes a 64-bit host database, so the defaults are the 8-byte rows and
`stringmap[None] = stringmap[str]`. -/
def defaultLookup (t : pykind) : Option (Nat × Int) :=
  match t with
  | .int => (integermap.lookup 8).map id
  | .long => (integermap.lookup 8).map id
  | .float => (decimalmap.lookup 8).map id
  | .type => (ptrmap.lookup 8).map id
  | .str => (stringmap.lookup .str).map id
  | .unicode => (stringmap.lookup .str).map id
  | .chr => (stringmap.lookup .str).map id
  | .none => some nonemapEntry

/-- `typemap.resolve`: convert a pythonic type into the host's
`(flag, typeid, size)` triple.  The sibling structure module's
`by_identifier` capability is passed in as `structs : Nat -> Option Nat`
(structure id to structure size). -/
def resolve (structs : Nat → Option Nat) : pyval → Except PyErr (Nat × Nat × Nat)
  | .scalar t sz =>
    match scalarLookup t sz with
    | Option.none => .error .keyError
    | some (flag, typeid) =>
      let typeid' := if typeid < 0 then BADADDR else typeid.toNat
      .ok (flag ||| (if sz < 0 then FF_SIGN else 0), typeid', sz.natAbs * 1)
  | .array el count => do
    let (flag, typeid, sz) ← resolve structs el
    -- the recursive result's size is already non-negative, so the trailing
    -- sign fold of the source is the identity here
    let typeid' := if (typeid : Int) < 0 then BADADDR else typeid
    .ok (flag ||| (if (sz : Int) < 0 then FF_SIGN else 0), typeid', sz * count)
  | .struc id =>
    match structs id with
    | Option.none => .error .lookupError
    | some sz =>
      let typeid' := if (id : Int) < 0 then BADADDR else id
      .ok (struflag ||| (if (sz : Int) < 0 then FF_SIGN else 0), typeid', sz * 1)
  | .bare t =>
    match defaultLookup t with
    | Option.none => .error .keyError
    | some (flag, typeid) =>
      let typeid' := if typeid < 0 then BADADDR else typeid.toNat
      .ok (flag, typeid', get_data_elsize flag)

/-- `typemap.dissolve`: convert a host `(flag, typeid, size)` triple back
into a pythonic type.  `structs` is the sibling structure module's
`by_identifier` capability (structure id to structure size). -/
def dissolve (structs : Nat → Option Nat) (flag typeid size : Nat) :
    Except PyErr pyval :=
  let dt := flag &&& FF_MASKSIZE
  let sf : Int := if flag &&& FF_SIGN = FF_SIGN then -1 else 1
  if dt = FF_STRU then
    match structs typeid with
    | Option.none => .error .lookupError
    | some sz =>
      if sz = size then .ok (.struc typeid)
      else .ok (.array (.struc typeid) (size / sz))
  else
    -- a missing entry is logged and then raises `KeyError` on the lookup
    match inverted.lookup dt with
    | Option.none => .error .keyError
    | some (t, .dyn) =>
      let count := size / get_data_elsize dt
      if count > 1 then .ok (.array (.bare t) count) else .ok (.bare t)
    | some (t, .fixed sz) =>
      if sz = (size : Int) then .ok (.scalar t (sz * sf))
      else .ok (.array (.scalar t (sz * sf)) (size / sz.natAbs))

/-- An empty structure environment, for triples that never reach the
structure branch. -/
def noStructs : Nat → Option Nat := fun _ => Option.none

/-- `dissolve` applied to the triple returned by `resolve`. -/
def roundtrip (structs : Nat → Option Nat) (v : pyval) : Except PyErr pyval :=
  (resolve structs v).bind fun r => dissolve structs r.1 r.2.1 r.2.2

end typemap

/-! ## Claim C1: scalar round-trip through the type mapper -/

/-- Claim C1 (original statement, refuted): "for every scalar symbolic type
`Scalar(kind, size)` whose kind/size combination is present in the
architecture's current type tables, `dissolve(resolve(s)) == s`".  The
pointer scalar `(type, 4)` is in `ptrmap`, but `dissolve` masks its flag
with `FF_MASKSIZE`, losing the offset bits, and returns the integer scalar
`(int, 4)` instead. -/
theorem C1_counterexample :
    typemap.roundtrip typemap.noStructs (.scalar .type 4) = .ok (.scalar .int 4) ∧
    (Except.ok (pyval.scalar .int 4) : Except PyErr pyval) ≠ .ok (.scalar .type 4) := by
  decide

/-- Claim C1 (amended): `dissolve(resolve(s)) == s` holds for integer
scalars of every `integermap` size (either sign) and for decimal scalars
of sizes 4, 8 and 10 (10 being the packed-real size that survives the
inverted-table construction under CPython 2's dict iteration order); it
fails for the pointer kind (the offset bits are masked away, giving the
integer scalar of the same size), for character/string kinds (a bare
`str` token comes back), for the alignment kind (its flag is not in the
inverted table, so the lookup raises `KeyError`), for `long` (the
inverted table stores `int`), and for the aliased packed-real size 12
(which dissolves to a one-element array of 10-byte reals). -/
theorem C1_amended_roundtrip :
    (∀ sz : Int, sz ∈ ([1, 2, 4, 8, 10, 16, -1, -2, -4, -8, -10, -16] : List Int) →
      typemap.roundtrip typemap.noStructs (.scalar .int sz) = .ok (.scalar .int sz)) ∧
    (∀ sz : Int, sz ∈ ([4, 8, 10, -4, -8, -10] : List Int) →
      typemap.roundtrip typemap.noStructs (.scalar .float sz) = .ok (.scalar .float sz)) ∧
    typemap.roundtrip typemap.noStructs (.scalar .type 4) = .ok (.scalar .int 4) ∧
    typemap.roundtrip typemap.noStructs (.scalar .chr 1) = .ok (.bare .str) ∧
    typemap.roundtrip typemap.noStructs (.scalar .str 5) = .ok (.array (.bare .str) 5) ∧
    typemap.roundtrip typemap.noStructs (.scalar .none 16) = .error .keyError ∧
    typemap.roundtrip typemap.noStructs (.scalar .long 4) = .ok (.scalar .int 4) ∧
    typemap.roundtrip typemap.noStructs (.scalar .float 12) =
      .ok (.array (.scalar .float 10) 1) := by
  decide

/-- Witness for claim C1's amended theorem at the 16-bit integer scalar. -/
theorem C1_amended_roundtrip_witness :
    (2 : Int) ∈ ([1, 2, 4, 8, 10, 16, -1, -2, -4, -8, -10, -16] : List Int) ∧
    typemap.roundtrip typemap.noStructs (.scalar .int 2) = .ok (.scalar .int 2) :=
  ⟨by decide, C1_amended_roundtrip.1 2 (by decide)⟩

/-! ## Claim C3: dissolve on the structure flag -/

/-- Claim C3: for a `dissolve` call with the structure flag, a structure id
`tid`, and a byte `size` that the structure's own size divides exactly, the
result is `Array(StructureRef, size/structSize)` when the quotient exceeds
1 and the bare `StructureRef` when the quotient equals 1. -/
theorem C3_dissolve_structure (structs : Nat → Option Nat) (tid size ssize : Nat)
    (hs : structs tid = some ssize) (hpos : 0 < ssize) (hdvd : ssize ∣ size)
    (hszpos : 0 < size) :
    typemap.dissolve structs idaapi.struflag tid size =
      .ok (if 1 < size / ssize then pyval.array (.struc tid) (size / ssize)
           else pyval.struc tid) := by
  obtain ⟨k, rfl⟩ := hdvd
  have hk : 0 < k := by
    rcases Nat.eq_zero_or_pos k with hk0 | hk0
    · subst hk0; simp at hszpos
    · exact hk0
  have hdiv : ssize * k / ssize = k := Nat.mul_div_cancel_left k hpos
  have hdt : idaapi.struflag &&& typemap.FF_MASKSIZE = idaapi.FF_STRU := by decide
  simp only [typemap.dissolve]
  rw [if_pos hdt]
  simp only [hs, hdiv]
  rcases Nat.lt_or_ge 1 k with hk1 | hk1
  · have hlt : ssize < ssize * k := by
      have h2 := mul_lt_mul_of_pos_left hk1 hpos
      simpa using h2
    rw [if_neg (Nat.ne_of_lt hlt), if_pos hk1]
  · have hke : k = 1 := le_antisymm hk1 hk
    subst hke
    rw [if_pos (Nat.mul_one ssize).symm, if_neg (by omega)]

/-- Witness for claim C3's theorem: a structure of size 4 dissolved at
size 8 yields a 2-element array. -/
theorem C3_dissolve_structure_witness :
    (fun t => if t = 7 then some 4 else Option.none) 7 = some 4 ∧
    typemap.dissolve (fun t => if t = 7 then some 4 else Option.none)
      idaapi.struflag 7 8 = .ok (.array (.struc 7) 2) := by
  refine ⟨rfl, ?_⟩
  have h := C3_dissolve_structure (fun t => if t = 7 then some 4 else Option.none)
    7 8 4 rfl (by decide) (by decide) (by decide)
  simpa using h

namespace priorityhook

/-- What a hooked callback produces when the trampoline calls it: one of
the `CONTINUE`/`STOP` result singletons, another instance of the `result`
class, a value that is not a `result` instance at all, or an exception
raised during the call. -/
inductive pyret
  | continueR
  | stopR
  | otherResult
  | nonResult
  | raises
  deriving DecidableEq, Repr

/-- Python tuple comparison on the heap's `(priority, callable)` pairs;
callables are modelled by their object ids, which is what CPython's
fallback comparison of two plain objects amounts to. -/
def ltP (a b : Int × Nat) : Bool :=
  decide (a.1 < b.1) || (decide (a.1 = b.1) && decide (a.2 < b.2))

/-- `heapq._siftdown`: move the freshly appended item toward the root of
the heap while it is smaller than its parent.  The heap is a Python list,
embedded as a Lean list; `List.set` matches Python's in-range item
assignment (the code never assigns out of range). -/
def siftdown (newitem : Int × Nat) (heap : List (Int × Nat)) (pos : Nat) :
    List (Int × Nat) :=
  if h : 0 < pos then
    let parentpos := (pos - 1) / 2
    let parent := heap.getD parentpos (0, 0)
    if ltP newitem parent then siftdown newitem (heap.set pos parent) parentpos
    else heap.set pos newitem
  else heap.set pos newitem
termination_by pos
decreasing_by simp_wf; omega

/-- `heapq.heappush`: append, then sift down. -/
def heappush (heap : List (Int × Nat)) (item : Int × Nat) : List (Int × Nat) :=
  siftdown item (heap ++ [item]) heap.length

/-- Python dict assignment on the cache association list. -/
def cacheSet (m : List (String × List (Int × Nat))) (k : String)
    (v : List (Int × Nat)) : List (String × List (Int × Nat)) :=
  if (m.lookup k).isSome then m.map (fun p => if p.1 = k then (k, v) else p)
  else m ++ [(k, v)]

/-- `dict.pop(k, default)` on the cache association list. -/
def cachePop (m : List (String × List (Int × Nat))) (k : String) :
    List (String × List (Int × Nat)) :=
  m.filter (fun p => p.1 ≠ k)

/-- The dispatcher state: the method names available on the installed
host-hook object, the `__cache` of per-event heaps of
`(priority, callable id)` pairs, and the `__disabled` event-name set.
The captured registration backtraces only feed log output and are not
modelled. -/
structure hookstate where
  objAttrs : List String
  cache : List (String × List (Int × Nat))
  disabled : List String
  deriving DecidableEq, Repr

/-- `priorityhook.__init__`: an empty cache and disabled set against a hook
type exposing the event methods in `attrs`. -/
def init (attrs : List String) : hookstate := ⟨attrs, [], []⟩

/-- `priorityhook.discard`: drop every registration of `cb` for the event
`name`; raises `AttributeError` when the hook object has no such method,
and returns whether anything was removed. -/
def discard (st : hookstate) (name : String) (cb : Nat) :
    Except PyErr (hookstate × Bool) :=
  if name ∉ st.objAttrs then .error .attributeError
  else match st.cache.lookup name with
    | Option.none => .ok (st, false)
    | some l =>
      let res := l.filter (fun p => p.2 ≠ cb)
      let found := l.length - res.length
      let cache' := if res.isEmpty then cachePop st.cache name
                    else cacheSet st.cache name res
      .ok ({st with cache := cache'}, decide (found ≠ 0))

/-- `priorityhook.add`: install the trampoline on first use of the event
(an unknown event name raises `AttributeError` from `apply`), discard any
earlier registration of the same callable, and push
`(priority, callable)` onto the event's heap. -/
def add (st : hookstate) (name : String) (cb : Nat) (priority : Int) :
    Except PyErr hookstate :=
  if (st.cache.lookup name).isNone ∧ name ∉ st.objAttrs then .error .attributeError
  else
    match discard st name cb with
    | .error er => .error er
    | .ok (st2, _) =>
      let l := (st2.cache.lookup name).getD []
      .ok {st2 with cache := cacheSet st2.cache name (heappush l (priority, cb))}

/-- `priorityhook.get`: the callables hooking `name`, in the raw heap-list
order. -/
def get (st : hookstate) (name : String) : List Nat :=
  ((st.cache.lookup name).getD []).map Prod.snd

/-- `priorityhook.enable`.  On the `name not in self.__disabled` path the
source evaluates `cls.__name__` for its log message, but `cls` is not
bound in this method's scope, so the call raises `NameError` instead of
logging and returning `False`. -/
def enable (st : hookstate) (name : String) : Except PyErr (hookstate × Bool) :=
  if name ∉ st.disabled then .error .nameError
  else .ok ({st with disabled := st.disabled.erase name}, true)

/-- `priorityhook.disable`.  The two failure paths (`name` not in the
cache, `name` already disabled) evaluate the unbound name `cls` while
building their log messages, raising `NameError` instead of returning
`False`. -/
def disable (st : hookstate) (name : String) : Except PyErr (hookstate × Bool) :=
  if (st.cache.lookup name).isNone then .error .nameError
  else if name ∈ st.disabled then .error .nameError
  else .ok ({st with disabled := name :: st.disabled}, true)

/-- Insertion step for `heapq.nsmallest`'s sorted view of the heap. -/
def sortIns (x : Int × Nat) : List (Int × Nat) → List (Int × Nat)
  | [] => [x]
  | y :: ys => if ltP x y then x :: y :: ys else y :: sortIns x ys

/-- `heapq.nsmallest(len(hookq), hookq)`: the heap list in ascending
`(priority, callable)` order. -/
def hsort : List (Int × Nat) → List (Int × Nat)
  | [] => []
  | x :: xs => sortIns x (hsort xs)

/-- The callback loop of the trampoline built by `priorityhook.apply`:
a raising callback is logged and its result replaced by `STOP`; `CONTINUE`
or any non-`result` value moves on to the next callback; `STOP` breaks; any
other `result` instance raises `TypeError` out of the trampoline.  The
returned list records which callables were invoked. -/
def runCallbacks (beh : Nat → pyret) : List (Int × Nat) → Except PyErr (List Nat)
  | [] => .ok []
  | (_, f) :: rest =>
    match beh f with
    | .raises => .ok [f]
    | .stopR => .ok [f]
    | .continueR => (runCallbacks beh rest).map (f :: ·)
    | .nonResult => (runCallbacks beh rest).map (f :: ·)
    | .otherResult => .error .typeError

/-- The dispatch trampoline `priorityhook.apply(name)` installs: when the
event is cached and not disabled, run the registered callbacks in
ascending order, then fall through to the superclass implementation.
`.ok trace` means the superclass method was reached after invoking
`trace`; `.error` is an exception escaping the trampoline. -/
def dispatch (st : hookstate) (name : String) (beh : Nat → pyret) :
    Except PyErr (List Nat) :=
  match st.cache.lookup name with
  | Option.none => .ok []
  | some l =>
    if name ∈ st.disabled then .ok []
    else runCallbacks beh (hsort l)

end priorityhook

section dispatcher_claims

open priorityhook

/-! ## Claim C2: dispatch runs callbacks in ascending priority order -/

/-- Claim C2: with three callbacks registered at priorities 30, 10 and 20
for the same event, a dispatch invokes them in ascending priority order
`[10, 20, 30]`; and when the priority-10 callback returns `Stop`, the
priority-20 and priority-30 callbacks are not invoked. -/
theorem C2_priority_dispatch_order (e : String) (a b c : Nat) (beh : Nat → pyret)
    (hab : a ≠ b) (hac : a ≠ c) (hbc : b ≠ c) (st : hookstate)
    (hst : (add (init [e]) e a 30).bind
        (fun s => (add s e b 10).bind (fun s2 => add s2 e c 20)) = .ok st) :
    (beh a = .continueR → beh b = .continueR → beh c = .continueR →
      dispatch st e beh = .ok [b, c, a]) ∧
    (beh b = .stopR → dispatch st e beh = .ok [b]) := by
  have h1 : add (init [e]) e a 30 = .ok ⟨[e], [(e, [(30, a)])], []⟩ := by
    simp [add, priorityhook.discard, heappush, siftdown, cacheSet, cachePop, init]
  have h2 : add ⟨[e], [(e, [(30, a)])], []⟩ e b 10 =
      .ok ⟨[e], [(e, [(10, b), (30, a)])], []⟩ := by
    simp [add, priorityhook.discard, heappush, siftdown, ltP, cacheSet, cachePop, hab]
  have h3 : add ⟨[e], [(e, [(10, b), (30, a)])], []⟩ e c 20 =
      .ok ⟨[e], [(e, [(10, b), (30, a), (20, c)])], []⟩ := by
    simp [add, priorityhook.discard, heappush, siftdown, ltP, cacheSet, cachePop,
      hac, hbc]
  rw [h1] at hst
  simp only [Except.bind] at hst
  rw [h2] at hst
  simp only [Except.bind] at hst
  rw [h3] at hst
  simp only [Except.ok.injEq] at hst
  subst hst
  constructor
  · intro ha hb hc
    simp [dispatch, hsort, sortIns, ltP, runCallbacks, ha, hb, hc, Except.map]
  · intro hb
    simp [dispatch, hsort, sortIns, ltP, runCallbacks, hb, Except.map]

/-- Witness for claim C2's theorem: callbacks 1, 2, 3 at priorities 30, 10,
20 on event "ev", dispatched once with all callbacks continuing and once
with callback 2 stopping. -/
theorem C2_priority_dispatch_order_witness :
    ((fun _ : Nat => pyret.continueR) 1 = .continueR →
        (fun _ : Nat => pyret.continueR) 2 = .continueR →
        (fun _ : Nat => pyret.continueR) 3 = .continueR →
      dispatch ⟨["ev"], [("ev", [(10, 2), (30, 1), (20, 3)])], []⟩ "ev"
        (fun _ => pyret.continueR) = .ok [2, 3, 1]) ∧
    ((fun _ : Nat => pyret.continueR) 2 = .stopR →
      dispatch ⟨["ev"], [("ev", [(10, 2), (30, 1), (20, 3)])], []⟩ "ev"
        (fun _ => pyret.continueR) = .ok [2]) :=
  C2_priority_dispatch_order "ev" 1 2 3 (fun _ => pyret.continueR)
    (by decide) (by decide) (by decide)
    ⟨["ev"], [("ev", [(10, 2), (30, 1), (20, 3)])], []⟩
    (by simp [add, priorityhook.discard, heappush, siftdown, ltP, cacheSet,
      cachePop, init, Except.bind])

/-! ## Claim C6: treatment of callback return values during dispatch -/

/-- Claim C6 (original statement, refuted): a callback returning a value
that is neither `Continue` nor `Stop` is not "treated as erroring ...
treated as Stop": a non-`result` return value is treated as `Continue`
(the later callback still runs), and a `result` instance that is neither
singleton raises a `TypeError` that propagates out of the trampoline. -/
theorem C6_counterexample :
    ((add (init ["ev"]) "ev" 1 10).bind (fun s => add s "ev" 2 20)).bind
      (fun s => dispatch s "ev"
        (fun n => if n = 1 then pyret.nonResult else pyret.continueR)) = .ok [1, 2] ∧
    (Except.ok [1, 2] : Except PyErr (List Nat)) ≠ .ok [1] ∧
    ((add (init ["ev"]) "ev" 1 10).bind (fun s => add s "ev" 2 20)).bind
      (fun s => dispatch s "ev"
        (fun n => if n = 1 then pyret.otherResult else pyret.continueR)) =
      .error .typeError := by
  refine ⟨?_, by decide, ?_⟩ <;>
    simp [add, priorityhook.discard, heappush, siftdown, ltP, cacheSet, cachePop,
      init, Except.bind, dispatch, hsort, sortIns, runCallbacks, Except.map]

/-- Claim C6 (amended): a callback that raises is isolated — it is logged,
treated as `Stop` for that event, and dispatch still reaches the
superclass implementation; a return value that is not a `result` instance
is treated as `Continue` (dispatch proceeds with the remaining callbacks);
a `result` instance that is neither `Continue` nor `Stop` raises a
`TypeError` that propagates out of the trampoline, skipping the
superclass implementation. -/
theorem C6_amended_callback_results (st : hookstate) (e : String)
    (beh : Nat → pyret) (l : List (Int × Nat))
    (hl : st.cache.lookup e = some l) (hd : e ∉ st.disabled)
    (p : Int) (f : Nat) (rest : List (Int × Nat))
    (hs : hsort l = (p, f) :: rest) :
    (beh f = .raises → dispatch st e beh = .ok [f]) ∧
    (beh f = .nonResult →
      dispatch st e beh = (runCallbacks beh rest).map (f :: ·)) ∧
    (beh f = .otherResult → dispatch st e beh = .error .typeError) := by
  refine ⟨?_, ?_, ?_⟩ <;> intro hb <;>
    simp [dispatch, hl, hd, hs, runCallbacks, hb]

/-- Witness for claim C6's amended theorem: a raising callback at priority
10 stops dispatch after itself. -/
theorem C6_amended_callback_results_witness :
    (((fun n : Nat => if n = 1 then pyret.raises else pyret.continueR) 1 = .raises →
      dispatch ⟨["ev"], [("ev", [(10, 1), (20, 2)])], []⟩ "ev"
        (fun n => if n = 1 then pyret.raises else pyret.continueR) = .ok [1]) ∧
    ((fun n : Nat => if n = 1 then pyret.raises else pyret.continueR) 1 = .nonResult →
      dispatch ⟨["ev"], [("ev", [(10, 1), (20, 2)])], []⟩ "ev"
        (fun n => if n = 1 then pyret.raises else pyret.continueR) =
        (runCallbacks (fun n => if n = 1 then pyret.raises else pyret.continueR)
          [(20, 2)]).map (1 :: ·)) ∧
    ((fun n : Nat => if n = 1 then pyret.raises else pyret.continueR) 1 = .otherResult →
      dispatch ⟨["ev"], [("ev", [(10, 1), (20, 2)])], []⟩ "ev"
        (fun n => if n = 1 then pyret.raises else pyret.continueR) =
        .error .typeError)) :=
  C6_amended_callback_results ⟨["ev"], [("ev", [(10, 1), (20, 2)])], []⟩ "ev"
    (fun n => if n = 1 then pyret.raises else pyret.continueR)
    [(10, 1), (20, 2)] (by decide) (by decide) 10 1 [(20, 2)] (by decide)

/-! ## Claim C7: enable/disable on an unregistered or not-disabled event -/

/-- Claim C7 (refuting the claim, exposing the code bug): enabling an
event that is not disabled and disabling an event that is not registered
both raise `NameError` — their log-message format strings evaluate the
unbound name `cls` — instead of logging and returning `False` as the
claim (and the evident intent of the surrounding code) says. -/
theorem C7_enable_disable_nameerror :
    enable (init ["ev"]) "newfile" = .error .nameError ∧
    disable (init ["ev"]) "newfile" = .error .nameError := by
  decide

/-! ## Claim C8: duplicate registrations are discarded before insertion -/

/-- Claim C8: after `add(name, cb, p1)` and then `add(name, cb, p2)` on a
fresh dispatcher, the callable occurs exactly once in `get(name)` — the
second `add` discards the first registration before pushing the new one. -/
theorem C8_add_deduplicates (e : String) (cb : Nat) (p1 p2 : Int)
    (st1 st2 : hookstate)
    (h1 : add (init [e]) e cb p1 = .ok st1)
    (h2 : add st1 e cb p2 = .ok st2) :
    (get st2 e).count cb = 1 := by
  have e1 : add (init [e]) e cb p1 = .ok ⟨[e], [(e, [(p1, cb)])], []⟩ := by
    simp [add, priorityhook.discard, heappush, siftdown, cacheSet, cachePop, init]
  rw [e1] at h1
  simp only [Except.ok.injEq] at h1
  subst h1
  have e2 : add ⟨[e], [(e, [(p1, cb)])], []⟩ e cb p2 =
      .ok ⟨[e], [(e, [(p2, cb)])], []⟩ := by
    simp [add, priorityhook.discard, heappush, siftdown, cacheSet, cachePop]
  rw [e2] at h2
  simp only [Except.ok.injEq] at h2
  subst h2
  simp [priorityhook.get, List.count_cons]

/-- Witness for claim C8's theorem: callable 5 added twice to event "ev" at
priorities 30 and then 10. -/
theorem C8_add_deduplicates_witness :
    (get ⟨["ev"], [("ev", [(10, 5)])], []⟩ "ev").count 5 = 1 :=
  C8_add_deduplicates "ev" 5 30 10
    ⟨["ev"], [("ev", [(30, 5)])], []⟩ ⟨["ev"], [("ev", [(10, 5)])], []⟩
    (by simp [add, priorityhook.discard, heappush, siftdown, cacheSet, cachePop, init])
    (by simp [add, priorityhook.discard, heappush, siftdown, cacheSet, cachePop])

end dispatcher_claims

/-- A register of an architecture: name, bit size, bit position, and the
`__parent__` link.  The parent chain is embedded structurally — the
per-architecture register trees the source builds with
`architecture_t.new`/`architecture_t.child` are finite and acyclic. -/
inductive register_t
  | mk (name : String) (size : Nat) (position : Nat) (parent : Option register_t)

namespace register_t

def name : register_t → String
  | .mk n _ _ _ => n

def size : register_t → Nat
  | .mk _ sz _ _ => sz

def parent : register_t → Option register_t
  | .mk _ _ _ par => par

/-- The register together with the chain of its ancestors, nearest first. -/
def chain : register_t → List register_t
  | .mk n sz pos par =>
    .mk n sz pos par :: (match par with
      | some p => chain p
      | Option.none => [])

end register_t

namespace architecture_t

/-- `architecture_t.promote`: the `parent` closure raises `StopIteration`
on a register whose `__parent__` is `None`; the method catches it and
raises `LookupError`.  Note the `register.size == size` test is made on
the register itself before any parent step is taken. -/
def promote : register_t → Option Nat → Except PyErr register_t
  | .mk _ _ _ par, Option.none =>
    match par with
    | some p => .ok p
    | Option.none => .error .lookupError
  | .mk n sz pos par, some t =>
    if sz = t then .ok (.mk n sz pos par)
    else match par with
      | some p => promote p (some t)
      | Option.none => .error .lookupError

end architecture_t

/-! ## Claim C4: promote walks the parent chain -/

/-- Claim C4 (original statement, refuted): `promote(R, t)` does not walk
strictly upward — it tests the given register's own size before taking any
parent step, so a register whose size already equals the target is
returned itself.  Here a parentless register of size 8 is "promoted" to
itself, where the claim requires a `NotFound` failure (and in particular
that `R` itself is never returned). -/
theorem C4_counterexample :
    architecture_t.promote (.mk "rax" 8 0 Option.none) (some 8) =
      .ok (.mk "rax" 8 0 Option.none) ∧
    (Except.ok (register_t.mk "rax" 8 0 Option.none) : Except PyErr register_t) ≠
      .error .lookupError :=
  ⟨rfl, fun h => Except.noConfusion h⟩

/-- Claim C4 (amended): `promote(R, t)` returns the first register of size
`t` on the chain `R`, `parent(R)`, `parent(parent(R))`, ... — including
`R` itself when `R.size = t` — and fails with `LookupError` when the chain
is exhausted without a match; with `t` omitted it returns the immediate
parent, failing with `LookupError` at the root. -/
theorem C4_amended_promote_chain : ∀ (r : register_t) (t : Nat),
    (architecture_t.promote r (some t) =
      match (register_t.chain r).find? (fun x => x.size == t) with
      | some x => .ok x
      | Option.none => .error .lookupError) ∧
    (architecture_t.promote r Option.none =
      match r.parent with
      | some p => .ok p
      | Option.none => .error .lookupError)
  | .mk n sz pos (some p), t => by
    constructor
    · by_cases hsz : sz = t
      · subst hsz
        simp [architecture_t.promote, register_t.chain, register_t.size,
          List.find?]
      · have ih := (C4_amended_promote_chain p t).1
        have hbeq : (sz == t) = false := by simp [hsz]
        simp only [register_t.size] at ih
        simp [architecture_t.promote, register_t.chain, register_t.size,
          List.find?, hsz, hbeq, ih]
    · rfl
  | .mk n sz pos Option.none, t => by
    constructor
    · by_cases hsz : sz = t
      · subst hsz
        simp [architecture_t.promote, register_t.chain, register_t.size,
          List.find?]
      · have hbeq : (sz == t) = false := by simp [hsz]
        simp [architecture_t.promote, register_t.chain, register_t.size,
          List.find?, hsz, hbeq]
    · rfl

/-- A register object as seen by `register_t.__eq__`: its object identity
(Python `is` is modelled as equality of the `oid` allocated to each
distinct object) and its name. -/
structure regobj where
  oid : Nat
  name : String
  deriving DecidableEq, Repr

/-- The operand universe `register_t.__eq__` dispatches on: a string, a
register object, an object providing its own `__eq__` (whose verdict it
returns), or a plain object compared by identity. -/
inductive pyoperand
  | str (s : String)
  | reg (r : regobj)
  | withEq (res : Bool)
  | plain (oid : Nat)
  deriving DecidableEq, Repr

/-- `register_t.__eq__`: strings compare case-insensitively against the
register's name; another register compares by object identity (`self is
other`); an object with an `__eq__` gets asked; anything else is compared
by identity. -/
def regEq (self : regobj) : pyoperand → Bool
  | .str s => self.name.toLower == s.toLower
  | .reg o => self.oid == o.oid
  | .withEq res => res
  | .plain oid => oid == self.oid

/-! ## Claim C10: register equality semantics -/

/-- Claim C10: `R == s` for a string `s` holds exactly when `R`'s name
equals `s` ignoring letter case, and `R1 == R2` for two register objects
holds exactly when they are the identical object — never structurally, as
the two distinct registers sharing the name "ax" show. -/
theorem C10_register_eq :
    (∀ (r : regobj) (s : String),
      regEq r (.str s) = true ↔ r.name.toLower = s.toLower) ∧
    (∀ (r o : regobj), regEq r (.reg o) = true ↔ r.oid = o.oid) ∧
    regEq ⟨0, "ax"⟩ (.reg ⟨1, "ax"⟩) = false := by
  refine ⟨fun r s => ?_, fun r o => ?_, by decide⟩ <;> simp [regEq]

namespace ref_t

/-- `ref_t.__mapper__` for host version >= 7.0, with the sentinel code 31
(used internally, never produced by the host) appended: the call/jump
codes `fl_CF = 16`, `fl_CN = 17`, `fl_JF = 18`, `fl_JN = 19` and the
ordinary-flow code `fl_F = 21` map to "rx"; the offset codes `dr_O = 1`
and `dr_I = 5` to "&r"; `dr_R = 3` to "r" and `dr_W = 2` to "w".  A
`ref_t` value is a Python set of these permission characters. -/
def mapper : List (Nat × List Char) :=
  [(16, ['r', 'x']), (17, ['r', 'x']),
   (18, ['r', 'x']), (19, ['r', 'x']),
   (21, ['r', 'x']),
   (1, ['&', 'r']), (5, ['&', 'r']),
   (3, ['r']), (2, ['w']),
   (31, ['*'])]

/-- A `ref_t` object: the `F` attribute holding the host reference code it
was built from, and its contents as a set of permission characters. -/
structure refT where
  F : Nat
  chars : List Char
  deriving DecidableEq, Repr

/-- Python set equality on character lists. -/
def setEqB (a b : List Char) : Bool :=
  a.all (fun c => b.contains c) && b.all (fun c => a.contains c)

/-- Sorted-insertion step for `''.join(sorted(res))`. -/
def insChar (c : Char) : List Char → List Char
  | [] => [c]
  | d :: ds => if c ≤ d then c :: d :: ds else d :: insChar c ds

/-- `sorted` on a list of characters. -/
def sortChars : List Char → List Char
  | [] => []
  | c :: cs => insChar c (sortChars cs)

/-- `ref_t.of`: look the code up in the mapper (an unknown code yields the
empty set) and build a `ref_t` carrying the code and the characters. -/
def of (xrtype : Nat) : refT :=
  ⟨xrtype, (mapper.lookup xrtype).getD []⟩

/-- `ref_t.of_state` applied to a `ref_t`/set argument.  (The source's
`state == '*'` shortcut compares a set against a string, which is `False`
in Python 2 for every set — including `{chars '*'}` — so it only fires
when `of_state` is handed the bare string, a case settled by the mapper
loop anyway through the appended code-31 row.)  The first mapper row whose
set equals the argument's set determines the code; no match raises
`LookupError`. -/
def of_state (state : List Char) : Except PyErr refT :=
  let res := state.dedup
  match mapper.find? (fun p => setEqB p.2 res) with
  | some p => .ok ⟨p.1, sortChars res⟩
  | Option.none => .error .lookupError

end ref_t

/-! ## Claim C5: reference-code round-trip for codes with unique sets -/

/-- Claim C5: every host reference code in the mapper whose permission set
no other code shares (codes 2, 3 and 31) survives
`of_state(of(code)).F == code`; and `of_state` fails with `LookupError`
whenever no mapper row's set equals the given set exactly. -/
theorem C5_refcode_roundtrip :
    (∀ (code : Nat) (s : List Char), (code, s) ∈ ref_t.mapper →
      (∀ p ∈ ref_t.mapper, ref_t.setEqB p.2 s = true → p.1 = code) →
      ∃ r, ref_t.of_state (ref_t.of code).chars = .ok r ∧ r.F = code) ∧
    (∀ state : List Char,
      (∀ p ∈ ref_t.mapper, ref_t.setEqB p.2 state.dedup = false) →
      ref_t.of_state state = .error .lookupError) := by
  constructor
  · intro code s hmem huniq
    have hdec : ∀ q ∈ ref_t.mapper,
        (∀ p ∈ ref_t.mapper, ref_t.setEqB p.2 q.2 = true → p.1 = q.1) →
        Except.map (fun r : ref_t.refT => r.F)
          (ref_t.of_state (ref_t.of q.1).chars) = .ok q.1 := by
      decide
    have h := hdec (code, s) hmem huniq
    rcases hx : ref_t.of_state (ref_t.of code).chars with er | r
    · rw [hx] at h
      simp [Except.map] at h
    · rw [hx] at h
      simp only [Except.map, Except.ok.injEq] at h
      exact ⟨r, rfl, h⟩
  · intro state hnone
    have hfind : ref_t.mapper.find? (fun p => ref_t.setEqB p.2 state.dedup) =
        Option.none := by
      apply List.find?_eq_none.mpr
      intro p hp
      simp [hnone p hp]
    simp [ref_t.of_state, hfind]

/-- Witness for claim C5's theorem: code 2 ("w", the only write code)
round-trips, and the set {z} matches no row, so `of_state` fails on it. -/
theorem C5_refcode_roundtrip_witness :
    ((2, ['w']) ∈ ref_t.mapper ∧
      ∃ r, ref_t.of_state (ref_t.of 2).chars = .ok r ∧ r.F = 2) ∧
    ref_t.of_state ['z'] = .error .lookupError :=
  ⟨⟨by decide, C5_refcode_roundtrip.1 2 ['w'] (by decide) (by decide)⟩,
    C5_refcode_roundtrip.2 ['z'] (by decide)⟩

namespace switch_t

/-- The fields of the raw `idaapi.switch_info_ex_t` descriptor that
`switch_t` reads. -/
structure switch_info_ex where
  startea : Nat
  jumps : Nat
  lowcase : Nat
  defjump : Nat
  ncases : Nat
  jcases : Nat
  ind_lowcase : Int
  indirect : Bool
  subtract : Bool
  deriving DecidableEq, Repr

/-- Modelled from the spec: the sibling database module's
array-read-by-address-and-length capability (`database.get.array`), over
the host database contents `mem`. -/
def getArray (mem : Nat → Nat) (ea length : Nat) : List Nat :=
  (List.range length).map (fun i => mem (ea + i))

/-- `switch_t.base`: the lowest case value (`ind_lowcase` when the switch
is indirect, else 0). -/
def base (si : switch_info_ex) : Int :=
  if si.indirect then si.ind_lowcase else 0

/-- `switch_t.count`. -/
def count (si : switch_info_ex) : Nat := si.ncases

/-- `switch_t.branch`: the branch table (`jcases` entries when indirect,
else `ncases`). -/
def branch (mem : Nat → Nat) (si : switch_info_ex) : List Nat :=
  if si.indirect then getArray mem si.jumps si.jcases
  else getArray mem si.jumps si.ncases

/-- `switch_t.index`: the index table (`ncases` entries when indirect,
else an empty read). -/
def indexTable (mem : Nat → Nat) (si : switch_info_ex) : List Nat :=
  if si.indirect then getArray mem si.lowcase si.ncases
  else getArray mem si.jumps 0

/-- `switch_t.case`: the handler address for a case value.  Out-of-bounds
case values raise `ValueError`; an in-bounds value is translated through
the index table when the switch is indirect, then through the branch
table.  Python list indexing out of range surfaces as `IndexError`. -/
def case (mem : Nat → Nat) (si : switch_info_ex) (c : Int) : Except PyErr Nat :=
  if c < base si ∨ c ≥ (count si : Int) + base si then .error .valueError
  else
    let idx := (c - base si).toNat
    if si.indirect then
      match (indexTable mem si).get? idx with
      | Option.none => .error .indexError
      | some i2 =>
        match (branch mem si).get? i2 with
        | Option.none => .error .indexError
        | some v => .ok v
    else
      match (branch mem si).get? idx with
      | Option.none => .error .indexError
      | some v => .ok v

/-- Reading within an array read from the database yields the memory
contents at the corresponding address. -/
theorem getArray_getElem? (mem : Nat → Nat) (ea len i : Nat) (h : i < len) :
    (getArray mem ea len)[i]? = some (mem (ea + i)) := by
  rw [getArray, List.getElem?_map, List.getElem?_range h, Option.map_some']

end switch_t

/-! ## Claim C9: switch case-handler bounds -/

/-- Claim C9: for a switch descriptor with at least one case (and, when it
is indirect, an index table whose entries stay inside the branch table),
the case lookup fails with `OutOfRange` (a `ValueError`) at `base - 1` and
`base + count`, and returns an address without raising at `base` and
`base + count - 1`. -/
theorem C9_switch_case_bounds (mem : Nat → Nat) (si : switch_t.switch_info_ex)
    (hcount : 1 ≤ si.ncases)
    (hwf : si.indirect = true →
      ∀ i, i < si.ncases → mem (si.lowcase + i) < si.jcases) :
    switch_t.case mem si (switch_t.base si - 1) = .error .valueError ∧
    switch_t.case mem si (switch_t.base si + si.ncases) = .error .valueError ∧
    (∃ v, switch_t.case mem si (switch_t.base si) = .ok v) ∧
    (∃ v, switch_t.case mem si (switch_t.base si + si.ncases - 1) = .ok v) := by
  refine ⟨?_, ?_, ?_, ?_⟩
  · rw [switch_t.case, if_pos]
    exact Or.inl (by omega)
  · rw [switch_t.case, if_pos]
    exact Or.inr (by simp [switch_t.count]; omega)
  · rw [switch_t.case, if_neg (by simp [switch_t.count]; omega)]
    have hidx : (switch_t.base si - switch_t.base si).toNat = 0 := by omega
    simp only [hidx]
    cases hind : si.indirect with
    | false =>
      have h0 := switch_t.getArray_getElem? mem si.jumps si.ncases 0 (by omega)
      simp [hind, switch_t.branch, h0]
    | true =>
      have h0 := switch_t.getArray_getElem? mem si.lowcase si.ncases 0 (by omega)
      have h1 := switch_t.getArray_getElem? mem si.jumps si.jcases
        (mem (si.lowcase + 0)) (hwf hind 0 (by omega))
      simp only [Nat.add_zero] at h0 h1
      simp [hind, switch_t.indexTable, switch_t.branch, h0, h1]
  · rw [switch_t.case, if_neg (by simp [switch_t.count]; omega)]
    have hidx : (switch_t.base si + si.ncases - 1 - switch_t.base si).toNat =
        si.ncases - 1 := by omega
    simp only [hidx]
    cases hind : si.indirect with
    | false =>
      have h0 := switch_t.getArray_getElem? mem si.jumps si.ncases
        (si.ncases - 1) (by omega)
      simp [hind, switch_t.branch, h0]
    | true =>
      have h0 := switch_t.getArray_getElem? mem si.lowcase si.ncases
        (si.ncases - 1) (by omega)
      have h1 := switch_t.getArray_getElem? mem si.jumps si.jcases
        (mem (si.lowcase + (si.ncases - 1)))
        (hwf hind (si.ncases - 1) (by omega))
      simp [hind, switch_t.indexTable, switch_t.branch, h0, h1]

/-- Witness for claim C9's theorem: a direct 2-case switch over an
all-zero memory. -/
theorem C9_switch_case_bounds_witness :
    switch_t.case (fun _ => 0) ⟨0, 0, 0, 0, 2, 0, 0, false, false⟩
      (switch_t.base ⟨0, 0, 0, 0, 2, 0, 0, false, false⟩ - 1) = .error .valueError ∧
    switch_t.case (fun _ => 0) ⟨0, 0, 0, 0, 2, 0, 0, false, false⟩
      (switch_t.base ⟨0, 0, 0, 0, 2, 0, 0, false, false⟩ + 2) = .error .valueError ∧
    (∃ v, switch_t.case (fun _ => 0) ⟨0, 0, 0, 0, 2, 0, 0, false, false⟩
      (switch_t.base ⟨0, 0, 0, 0, 2, 0, 0, false, false⟩) = .ok v) ∧
    (∃ v, switch_t.case (fun _ => 0) ⟨0, 0, 0, 0, 2, 0, 0, false, false⟩
      (switch_t.base ⟨0, 0, 0, 0, 2, 0, 0, false, false⟩ + 2 - 1) = .ok v) :=
  C9_switch_case_bounds (fun _ => 0) ⟨0, 0, 0, 0, 2, 0, 0, false, false⟩
    (by decide) (fun h => absurd h (by decide))
